import Mathlib

/-!
Shallow embedding of the Astronautica physics core, and verification of the
specification claims against it.

Sources embedded here:
* `src/engine/physics.py` — `ObjectInSpace`, `collide`, `tick`'s resolution
  phase, `progress`;
* `src/engine/spacetime/collision.py` — `get_delta_v`, `_find`,
  `find_collision`;
* `src/geometry.py` — `npr`, `rad_deg`, `deg_rad`, `cart3_polar3`,
  `polar3_cart3`;
* `src/astronautica/engine/world/gravity.py` — `MultiSystem`.

Machine floats of the source are modelled as real numbers; Python ints as `ℤ`;
the exact rational arithmetic produced by dyadic bisection is mirrored on `ℚ`
where a concrete evaluation is required.
-/

namespace Astronautica

noncomputable section

/-- A cartesian 3-vector (numpy arrays / vectormath `Vector3` of the source). -/
structure Vec3 where
  x : ℝ
  y : ℝ
  z : ℝ

instance : Add Vec3 := ⟨fun a b => ⟨a.x + b.x, a.y + b.y, a.z + b.z⟩⟩

instance : Sub Vec3 := ⟨fun a b => ⟨a.x - b.x, a.y - b.y, a.z - b.z⟩⟩

instance : Neg Vec3 := ⟨fun a => ⟨-a.x, -a.y, -a.z⟩⟩

instance : SMul ℝ Vec3 := ⟨fun c v => ⟨c * v.x, c * v.y, c * v.z⟩⟩

instance : HDiv Vec3 ℝ Vec3 := ⟨fun v c => ⟨v.x / c, v.y / c, v.z / c⟩⟩

@[simp] theorem Vec3.add_x (a b : Vec3) : (a + b).x = a.x + b.x := rfl

@[simp] theorem Vec3.add_y (a b : Vec3) : (a + b).y = a.y + b.y := rfl

@[simp] theorem Vec3.add_z (a b : Vec3) : (a + b).z = a.z + b.z := rfl

@[simp] theorem Vec3.sub_x (a b : Vec3) : (a - b).x = a.x - b.x := rfl

@[simp] theorem Vec3.sub_y (a b : Vec3) : (a - b).y = a.y - b.y := rfl

@[simp] theorem Vec3.sub_z (a b : Vec3) : (a - b).z = a.z - b.z := rfl

@[simp] theorem Vec3.neg_x (a : Vec3) : (-a).x = -a.x := rfl

@[simp] theorem Vec3.neg_y (a : Vec3) : (-a).y = -a.y := rfl

@[simp] theorem Vec3.neg_z (a : Vec3) : (-a).z = -a.z := rfl

@[simp] theorem Vec3.smul_x (c : ℝ) (v : Vec3) : (c • v).x = c * v.x := rfl

@[simp] theorem Vec3.smul_y (c : ℝ) (v : Vec3) : (c • v).y = c * v.y := rfl

@[simp] theorem Vec3.smul_z (c : ℝ) (v : Vec3) : (c • v).z = c * v.z := rfl

@[simp] theorem Vec3.div_x (v : Vec3) (c : ℝ) : (v / c).x = v.x / c := rfl

@[simp] theorem Vec3.div_y (v : Vec3) (c : ℝ) : (v / c).y = v.y / c := rfl

@[simp] theorem Vec3.div_z (v : Vec3) (c : ℝ) : (v / c).z = v.z / c := rfl

@[ext] theorem Vec3.ext_xyz (a b : Vec3) (hx : a.x = b.x) (hy : a.y = b.y)
    (hz : a.z = b.z) : a = b := by
  cases a
  cases b
  simp_all

/-- `np.dot` on 3-vectors. -/
def dot (a b : Vec3) : ℝ := a.x * b.x + a.y * b.y + a.z * b.z

/-- `np.sum(np.square(v))` on a 3-vector. -/
def normSq (a : Vec3) : ℝ := a.x ^ 2 + a.y ^ 2 + a.z ^ 2

/-- Modelled from the spec: the kinematic part of `engine.geometry.Coordinates`
(module `engine/geometry.py` is absent from `src/`; the spec stores position
canonically as a cartesian 3-vector and velocity as a 3-vector, and
`add_velocity` adds a velocity change to the stored velocity). -/
structure Coordinates where
  position : Vec3
  velocity : Vec3
  domain : ℤ

/-- `ObjectInSpace` of `src/engine/physics.py`: radius (source field `size`),
mass, and a `Coordinates` value.  The global registry append performed by
`__init__` for non-private objects is not modelled (no claim depends on it). -/
structure ObjectInSpace where
  radius : ℝ
  mass : ℝ
  coords : Coordinates

set_option linter.unusedVariables false in
/-- `ObjectInSpace.__init__`: stores `size` as `radius` and `mass` as `mass`
unconditionally, and builds `Coordinates` at position `(x, y, z)` with zero
initial velocity.  The source performs no validation of any argument. -/
def ObjectInSpace.init (x y z size mass : ℝ) (domain : ℤ) (priv : Bool) :
    ObjectInSpace :=
  { radius := size
    mass := mass
    coords := { position := ⟨x, y, z⟩, velocity := ⟨0, 0, 0⟩, domain := domain } }

/-- `ObjectInSpace.impulse`: the change in velocity is the impulse divided by
the mass of the object (`d_velocity = impulse / self.mass`, then the spec's
`add_velocity` adds it to the stored velocity). -/
def ObjectInSpace.impulse (o : ObjectInSpace) (p : Vec3) : ObjectInSpace :=
  { o with coords := { o.coords with velocity := o.coords.velocity + p / o.mass } }

/-- `collide` of `src/engine/physics.py`.  Returns the two updated objects
together with the trace of `on_collide` hook invocations, in invocation order,
each recorded as (receiver, argument); the receivers are the post-impulse
objects because the source calls the hooks after both impulses are applied. -/
def collide (a b : ObjectInSpace) : ObjectInSpace × ObjectInSpace × List (ObjectInSpace × ObjectInSpace) :=
  let coeff_restitution : ℝ := 0.6
  let n := b.coords.position - a.coords.position
  let vai := a.coords.velocity
  let vbi := b.coords.velocity
  let mag := (-(1 + coeff_restitution) * dot (vai - vbi) n) / (1 / a.mass + 1 / b.mass)
  let imp := mag • n
  let a2 := a.impulse (-imp)
  let b2 := b.impulse imp
  (a2, b2, [(a2, b2), (b2, a2)])

/-- `get_delta_v` of `src/engine/spacetime/collision.py`: the pair of velocity
changes `(J / mass_a, -J / mass_b)` for `J = normal * (-(1+e) * (dot(va-vb, normal)
/ (1/ma + 1/mb)))`. -/
def get_delta_v (e : ℝ) (normal velocity_a velocity_b : Vec3) (mass_a mass_b : ℝ) :
    Vec3 × Vec3 :=
  let J := (-(1 + e) * (dot (velocity_a - velocity_b) normal / (1 / mass_a + 1 / mass_b))) • normal
  (J / mass_a, (-J) / mass_b)

/-- The relative-time conversion loop of `tick` (`src/engine/physics.py`,
lines 254-258): each record's absolute impact time is replaced by its offset
from the running total, and the running total is advanced by that offset.
Returns the converted list together with the final running total. -/
def relativize {α : Type} (total : ℚ) : List (ℚ × α) → List (ℚ × α) × ℚ
  | [] => ([], total)
  | (t, p) :: rest =>
      let dt := t - total
      let r := relativize (total + dt) rest
      ((dt, p) :: r.1, r.2)

/-- The resolution phase of `tick`: the collisions list is used exactly in the
order detection produced it (the source contains only a TODO comment in place
of the sort), converted to relative offsets, and the remaining time after the
last record is `seconds - total`. -/
def tickResolution {α : Type} (seconds : ℚ) (collisions : List (ℚ × α)) :
    List (ℚ × α) × ℚ :=
  let r := relativize 0 collisions
  (r.1, seconds - r.2)

/-- The absolute world time at which each record of the converted list is
resolved: `tick` calls `increment(dt)` and then `collide` for each record, so
a record is resolved at the running sum of the offsets up to and including its
own. -/
def resolveTimes {α : Type} (t0 : ℚ) : List (ℚ × α) → List (ℚ × α)
  | [] => []
  | (dt, p) :: rest => (t0 + dt, p) :: resolveTimes (t0 + dt) rest

/-- `progress` of `src/engine/physics.py`, returning the trace of `tick`
durations it performs, or the `ValueError` message it raises.  The source
checks `time == 0` first (no-op), then `time < 0`, then `granularity <= 0`,
and otherwise performs `time * granularity` ticks of `1 / granularity` each. -/
def progress (time : ℤ) (granularity : ℤ) : Except String (List ℚ) :=
  if time = 0 then Except.ok []
  else if time < 0 then
    Except.error ("Unfortunately the laws of thermodynamics prohibit time reversal.")
  else if granularity ≤ 0 then
    Except.error ("Progression granularity must be positive and nonzero")
  else Except.ok (List.replicate (time * granularity).toNat (1 / (granularity : ℚ)))

/-- Applying a trace of tick durations to a world state, in order. -/
def applyTicks {W : Type} (step : ℚ → W → W) (ts : List ℚ) (w : W) : W :=
  ts.foldl (fun s dt => step dt s) w

/-- A gravitational body as `MultiSystem` uses it: only its mass is relevant
to the claims. -/
structure Body where
  mass : ℝ

/-- `MultiSystem` of `src/astronautica/engine/world/gravity.py`.  The Python
class is a `set` of member bodies; distinct member objects are modelled as the
list of members. -/
structure MultiSystem where
  bodies : List Body

/-- `MultiSystem.__init__`: raises `ValueError` when given fewer than two
bodies, otherwise stores the members. -/
def MultiSystem.init (bodies : List Body) : Except String MultiSystem :=
  if bodies.length < 2 then
    Except.error ("A Multi System must have at least two Objects.")
  else Except.ok { bodies := bodies }

/-- `MultiSystem.mass`: `sum((o.mass for o in self), 0)`, a left fold starting
from zero, mirroring Python's `sum`. -/
def MultiSystem.mass (s : MultiSystem) : ℝ :=
  s.bodies.foldl (fun acc o => acc + o.mass) 0

/-- `npr` of `src/geometry.py`: `np.round(v, 5)`, rounding to five decimal
places with numpy's round-half-to-even tie rule. -/
def npr (v : ℝ) : ℝ :=
  (if v * 100000 - ⌊v * 100000⌋ < 1 / 2 then (⌊v * 100000⌋ : ℝ)
   else if 1 / 2 < v * 100000 - ⌊v * 100000⌋ then (⌊v * 100000⌋ : ℝ) + 1
   else if ⌊v * 100000⌋ % 2 = 0 then (⌊v * 100000⌋ : ℝ)
   else (⌊v * 100000⌋ : ℝ) + 1) / 100000

/-- `rad_deg` of `src/geometry.py`: `npr(math.degrees(theta))`. -/
def rad_deg (theta : ℝ) : ℝ := npr (theta * (180 / Real.pi))

/-- `deg_rad` of `src/geometry.py`: `npr(math.radians(theta))`. -/
def deg_rad (theta : ℝ) : ℝ := npr (theta * (Real.pi / 180))

/-- `cart3_polar3` of `src/geometry.py`: `rho = sqrt(x²+y²+z²)`,
`phi = rad_deg(arccos(z / rho))`, `theta = rad_deg(arctan(y / x))`, and the
result tuple `(rho, theta, phi)` is rounded elementwise by `npr`. -/
def cart3_polar3 (x y z : ℝ) : ℝ × ℝ × ℝ :=
  let rho := Real.sqrt (x ^ 2 + y ^ 2 + z ^ 2)
  let phi := rad_deg (Real.arccos (z / rho))
  let theta := rad_deg (Real.arctan (y / x))
  (npr rho, npr theta, npr phi)

/-- `polar3_cart3` of `src/geometry.py`: `theta = pi/2 - deg_rad(theta)`,
`phi = deg_rad(phi)`, then `x = rho sin phi sin theta`, `y = rho cos theta`,
`z = rho cos phi sin theta`, rounded elementwise by `npr`. -/
def polar3_cart3 (rho theta phi : ℝ) : ℝ × ℝ × ℝ :=
  let theta2 := Real.pi / 2 - deg_rad theta
  let phi2 := deg_rad phi
  let x := rho * Real.sin phi2 * Real.sin theta2
  let y := rho * Real.cos theta2
  let z := rho * Real.cos phi2 * Real.sin theta2
  (npr x, npr y, npr z)

theorem npr_of_lt_half (v : ℝ) (n : ℤ) (h1 : (n : ℝ) ≤ v * 100000)
    (h2 : v * 100000 < (n : ℝ) + 1 / 2) : npr v = (n : ℝ) / 100000 := by
  have hfl : ⌊v * 100000⌋ = n := by
    rw [Int.floor_eq_iff]
    constructor
    · exact_mod_cast h1
    · linarith
  rw [npr, hfl, if_pos]
  linarith

theorem npr_of_gt_half (v : ℝ) (n : ℤ) (h1 : (n : ℝ) + 1 / 2 < v * 100000)
    (h2 : v * 100000 < (n : ℝ) + 1) : npr v = ((n : ℝ) + 1) / 100000 := by
  have hfl : ⌊v * 100000⌋ = n := by
    rw [Int.floor_eq_iff]
    constructor
    · linarith
    · linarith
  rw [npr, hfl, if_neg (by linarith), if_pos (by linarith)]

/-- Rounding to five decimals moves a value down by at most half an ulp. -/
theorem npr_ge (v : ℝ) : v - 1 / 200000 ≤ npr v := by
  have h1 : (⌊v * 100000⌋ : ℝ) ≤ v * 100000 := Int.floor_le _
  have h2 : v * 100000 - 1 < (⌊v * 100000⌋ : ℝ) := Int.sub_one_lt_floor _
  rw [npr]
  split_ifs with hlt hgt heven
  · linarith
  · linarith
  · have : ¬ 1 / 2 < v * 100000 - (⌊v * 100000⌋ : ℝ) := hgt
    linarith
  · linarith

theorem npr_sqrt_three : npr (Real.sqrt 3) = 173205 / 100000 := by
  have hlb : (173205 : ℝ) / 100000 ≤ Real.sqrt 3 :=
    (Real.le_sqrt (by norm_num) (by norm_num)).2 (by norm_num)
  have hub : Real.sqrt 3 < 1732055 / 1000000 :=
    (Real.sqrt_lt' (by norm_num)).2 (by norm_num)
  have h := npr_of_lt_half (Real.sqrt 3) 173205 (by push_cast; linarith) (by push_cast; linarith)
  rw [h]
  norm_num

theorem npr_forty_five : npr 45 = 45 := by
  have h := npr_of_lt_half 45 4500000 (by norm_num) (by norm_num)
  rw [h]
  norm_num

theorem rad_deg_arctan_one : rad_deg (Real.arctan (1 / 1)) = 45 := by
  have h1 : (1 : ℝ) / 1 = 1 := by norm_num
  rw [rad_deg, h1, Real.arctan_one]
  have h2 : Real.pi / 4 * (180 / Real.pi) = 45 := by
    field_simp
    ring
  rw [h2, npr_forty_five]

theorem deg_rad_forty_five : deg_rad 45 = 78540 / 100000 := by
  have hgt : 3.141592 < Real.pi := Real.pi_gt_d6
  have hlt : Real.pi < 3.141593 := Real.pi_lt_d6
  have harg : (45 : ℝ) * (Real.pi / 180) = Real.pi / 4 := by ring
  rw [deg_rad, harg]
  have h := npr_of_gt_half (Real.pi / 4) 78539 (by nlinarith) (by nlinarith)
  rw [h]
  norm_num

theorem sin_point_7854_gt : (70710 : ℝ) / 100000 < Real.sin (78540 / 100000) := by
  have hgt : 3.141592 < Real.pi := Real.pi_gt_d6
  have hlt : Real.pi < 3.141593 := Real.pi_lt_d6
  have hmono := Real.strictMonoOn_sin (a := Real.pi / 4) (b := 78540 / 100000)
    ⟨by nlinarith, by nlinarith⟩ ⟨by nlinarith, by nlinarith⟩ (by nlinarith)
  have hval : Real.sin (Real.pi / 4) = Real.sqrt 2 / 2 := Real.sin_pi_div_four
  have hs2 : Real.sqrt 2 ^ 2 = 2 := Real.sq_sqrt (by norm_num)
  have hnn : (0 : ℝ) ≤ Real.sqrt 2 := Real.sqrt_nonneg 2
  have h2 : (70710 : ℝ) / 100000 < Real.sqrt 2 / 2 := by nlinarith
  rw [hval] at hmono
  linarith

/-- C4: the claim asserts that converting a cartesian vector to spherical
coordinates and back yields the vector again within 5-decimal tolerance.  On
the vector (1,1,1) the y-component of the round trip exceeds 1.00001 (it is
about 1.22475), so the round trip misses by far more than the tolerance: the
forward conversion `cart3_polar3` measures its angles in conventions
incompatible with the inverse used by `polar3_cart3`. -/
theorem C4_spherical_roundtrip_fails :
    1 + 1 / 100000 <
      (polar3_cart3 (cart3_polar3 1 1 1).1 (cart3_polar3 1 1 1).2.1
        (cart3_polar3 1 1 1).2.2).2.1 := by
  have hrho : (cart3_polar3 1 1 1).1 = 173205 / 100000 := by
    have harg : (1 : ℝ) ^ 2 + 1 ^ 2 + 1 ^ 2 = 3 := by norm_num
    simp only [cart3_polar3, harg]
    exact npr_sqrt_three
  have htheta : (cart3_polar3 1 1 1).2.1 = 45 := by
    simp only [cart3_polar3]
    exact_mod_cast congrArg npr rad_deg_arctan_one |>.trans npr_forty_five
  have hy : (polar3_cart3 (cart3_polar3 1 1 1).1 (cart3_polar3 1 1 1).2.1
      (cart3_polar3 1 1 1).2.2).2.1
      = npr (173205 / 100000 * Real.cos (Real.pi / 2 - deg_rad 45)) := by
    simp only [polar3_cart3, hrho, htheta]
  rw [hy, deg_rad_forty_five, Real.cos_pi_div_two_sub]
  have hsin := sin_point_7854_gt
  have hprod : (0 : ℝ) < 173205 / 100000 := by norm_num
  have h1 : (173205 : ℝ) / 100000 * (70710 / 100000)
      < 173205 / 100000 * Real.sin (78540 / 100000) :=
    mul_lt_mul_of_pos_left hsin hprod
  have h2 := npr_ge (173205 / 100000 * Real.sin (78540 / 100000))
  nlinarith

/-- The loop state of `_find` in `src/engine/spacetime/collision.py`: the
bracketing times and distances, the best result so far (`none` models Python's
`False`; the initial value is `some 0` because the source initialises
`result = 0`, which callers treat as an impact time), and the error term. -/
structure FindState (K : Type) where
  time_min : K
  dist_min : K
  time_max : K
  dist_max : K
  result : Option K
  error : K

/-- The `while` loop of `_find`, fuel-indexed: the source's loop counter bound
`i < 100` becomes the fuel, and the loop also stops when
`contact - error > 0.001` fails.  Each iteration classifies the midpoint
exactly as the source does: contact at window start reports no collision;
contact at midpoint or window end narrows the window and records the time;
otherwise the three-point distance pattern decides which half could contain a
pass-through, or the search concludes no impact occurs. -/
def findLoop {K : Type} [LinearOrderedField K] (dist : K → K) (contact : K) :
    FindState K → ℕ → Option K
  | st, 0 => st.result
  | st, fuel + 1 =>
    if contact - st.error > 1 / 1000 then
      let time_mid := (st.time_min + st.time_max) / 2
      let dist_mid := dist time_mid
      if st.dist_min < contact then
        none
      else if dist_mid < contact then
        findLoop dist contact
          ⟨st.time_min, st.dist_min, time_mid, dist_mid, some time_mid, dist_mid⟩ fuel
      else if st.dist_max < contact then
        findLoop dist contact
          ⟨time_mid, dist_mid, st.time_max, st.dist_max, some st.time_max, st.dist_max⟩ fuel
      else if st.dist_min < dist_mid ∧ dist_mid < st.dist_max then
        if dist_mid - st.dist_min = st.dist_max - dist_mid then
          none
        else if dist_mid - st.dist_min > st.dist_max - dist_mid then
          findLoop dist contact
            ⟨time_mid, dist_mid, st.time_max, st.dist_max, st.result, st.error⟩ fuel
        else
          findLoop dist contact
            ⟨st.time_min, st.dist_min, time_mid, dist_mid, st.result, st.error⟩ fuel
      else if st.dist_min > dist_mid ∧ dist_mid > st.dist_max
          ∨ st.dist_min > dist_mid ∧ st.dist_max > dist_mid then
        if dist_mid - st.dist_min = st.dist_max - dist_mid then
          none
        else if dist_mid - st.dist_min < st.dist_max - dist_mid then
          findLoop dist contact
            ⟨time_mid, dist_mid, st.time_max, st.dist_max, st.result, st.error⟩ fuel
        else
          findLoop dist contact
            ⟨st.time_min, st.dist_min, time_mid, dist_mid, st.result, st.error⟩ fuel
      else
        none
    else st.result

/-- The `distance_at` closure of `_find`: the distance
`sqrt(sum(square(a - b)))` between the two linearly projected positions at a
given time. -/
def distance_at (pos_a vel_a pos_b vel_b : Vec3) (time : ℝ) : ℝ :=
  Real.sqrt (normSq (pos_a + time • vel_a - (pos_b + time • vel_b)))

/-- `_find` of `src/engine/spacetime/collision.py`: runs the bisection loop
with fuel 100 from the window `[time_min, time_max]`, with `result = 0` and
`error = 0` initially. -/
def _find (pos_a vel_a pos_b vel_b : Vec3) (time_min time_max contact : ℝ) :
    Option ℝ :=
  findLoop (distance_at pos_a vel_a pos_b vel_b) contact
    ⟨time_min, distance_at pos_a vel_a pos_b vel_b time_min,
      time_max, distance_at pos_a vel_a pos_b vel_b time_max, some 0, 0⟩ 100

/-- `find_collision` of `src/engine/spacetime/collision.py`: contact distance
is the sum of the radii; the narrow-phase search runs over `[start, end]`. -/
def find_collision (obj_a obj_b : ObjectInSpace) (endT start : ℝ) : Option ℝ :=
  _find obj_a.coords.position obj_a.coords.velocity
    obj_b.coords.position obj_b.coords.velocity
    start endT (obj_a.radius + obj_b.radius)

/-- When the distance at the window start is already below the contact
distance, the first loop iteration of `_find` sets `result = False` and
breaks: the search reports no collision. -/
theorem findLoop_none_of_start_contact {K : Type} [LinearOrderedField K]
    (dist : K → K) (contact : K) (st : FindState K) (fuel : ℕ)
    (hentry : contact - st.error > 1 / 1000) (hmin : st.dist_min < contact) :
    findLoop dist contact st (fuel + 1) = none := by
  rw [findLoop, if_pos hentry]
  dsimp only
  rw [if_pos hmin]

/-- C2 counterexample: two stationary objects whose distance 1 at the window
start is below the contact distance 2.  The claim says the search reports the
start time 0 as the impact time; instead `_find` reports no collision. -/
theorem C2_counterexample :
    _find ⟨0, 0, 0⟩ ⟨0, 0, 0⟩ ⟨1, 0, 0⟩ ⟨0, 0, 0⟩ 0 5 2 = none
    ∧ _find ⟨0, 0, 0⟩ ⟨0, 0, 0⟩ ⟨1, 0, 0⟩ ⟨0, 0, 0⟩ 0 5 2 ≠ some 0 := by
  have hd : distance_at ⟨0, 0, 0⟩ ⟨0, 0, 0⟩ ⟨1, 0, 0⟩ ⟨0, 0, 0⟩ 0 < 2 := by
    have h1 : distance_at ⟨0, 0, 0⟩ ⟨0, 0, 0⟩ ⟨1, 0, 0⟩ ⟨0, 0, 0⟩ 0 = 1 := by
      simp [distance_at, normSq]
    rw [h1]
    norm_num
  have h := findLoop_none_of_start_contact
    (distance_at ⟨0, 0, 0⟩ ⟨0, 0, 0⟩ ⟨1, 0, 0⟩ ⟨0, 0, 0⟩) 2
    ⟨0, distance_at ⟨0, 0, 0⟩ ⟨0, 0, 0⟩ ⟨1, 0, 0⟩ ⟨0, 0, 0⟩ 0,
      5, distance_at ⟨0, 0, 0⟩ ⟨0, 0, 0⟩ ⟨1, 0, 0⟩ ⟨0, 0, 0⟩ 5, some 0, 0⟩
    99 (by norm_num) hd
  exact ⟨h, by rw [show _find ⟨0, 0, 0⟩ ⟨0, 0, 0⟩ ⟨1, 0, 0⟩ ⟨0, 0, 0⟩ 0 5 2 = none from h]; simp⟩

/-- C2 (amended): whenever the two objects are already within contact distance
at the window start (and the loop is entered at all, i.e. the contact distance
exceeds the 0.001 tolerance), the narrow-phase search reports no collision
(`False`) and stops, rather than reporting the start time. -/
theorem C2_start_contact_reports_none (pos_a vel_a pos_b vel_b : Vec3)
    (time_min time_max contact : ℝ) (hc : 1 / 1000 < contact)
    (hd : distance_at pos_a vel_a pos_b vel_b time_min < contact) :
    _find pos_a vel_a pos_b vel_b time_min time_max contact = none :=
  findLoop_none_of_start_contact (distance_at pos_a vel_a pos_b vel_b) contact
    ⟨time_min, distance_at pos_a vel_a pos_b vel_b time_min,
      time_max, distance_at pos_a vel_a pos_b vel_b time_max, some 0, 0⟩
    99 (by simpa using hc) hd

/-- C2 witness: concrete instance of the amended claim, with contact distance
4 and start distance 3. -/
theorem C2_witness :
    (1 / 1000 : ℝ) < 4
    ∧ distance_at ⟨0, 0, 0⟩ ⟨0, 0, 0⟩ ⟨3, 0, 0⟩ ⟨0, 0, 0⟩ 0 < 4
    ∧ _find ⟨0, 0, 0⟩ ⟨0, 0, 0⟩ ⟨3, 0, 0⟩ ⟨0, 0, 0⟩ 0 7 4 = none := by
  have hd : distance_at ⟨0, 0, 0⟩ ⟨0, 0, 0⟩ ⟨3, 0, 0⟩ ⟨0, 0, 0⟩ 0 < 4 := by
    have h1 : distance_at ⟨0, 0, 0⟩ ⟨0, 0, 0⟩ ⟨3, 0, 0⟩ ⟨0, 0, 0⟩ 0 = 3 := by
      simp only [distance_at, normSq, Vec3.add_x, Vec3.add_y, Vec3.add_z,
        Vec3.sub_x, Vec3.sub_y, Vec3.sub_z, Vec3.smul_x, Vec3.smul_y, Vec3.smul_z]
      rw [show ((0 : ℝ) + 0 * 0 - (3 + 0 * 0)) ^ 2 + (0 + 0 * 0 - (0 + 0 * 0)) ^ 2
          + (0 + 0 * 0 - (0 + 0 * 0)) ^ 2 = 3 ^ 2 by norm_num]
      exact Real.sqrt_sq (by norm_num)
    rw [h1]
    norm_num
  exact ⟨by norm_num, hd,
    C2_start_contact_reports_none ⟨0, 0, 0⟩ ⟨0, 0, 0⟩ ⟨3, 0, 0⟩ ⟨0, 0, 0⟩ 0 7 4
      (by norm_num) hd⟩

/-- Casting a rational loop state to a real loop state, fieldwise. -/
def FindState.cast (st : FindState ℚ) : FindState ℝ :=
  ⟨(st.time_min : ℝ), (st.dist_min : ℝ), (st.time_max : ℝ), (st.dist_max : ℝ),
    st.result.map (fun q => (q : ℝ)), (st.error : ℝ)⟩

/-- The bisection loop commutes with the embedding of `ℚ` into `ℝ`: when the
real distance function agrees with a rational one on rational inputs, the real
loop on a cast state is the cast of the rational loop.  This lets concrete
runs of `_find` (whose inputs produce dyadic-rational iterates) be evaluated
exactly. -/
theorem tol_cast : ((1 : ℝ) / 1000) = (((1 : ℚ) / 1000 : ℚ) : ℝ) := by norm_num

theorem findLoop_rat_cast (dist : ℝ → ℝ) (distQ : ℚ → ℚ)
    (hdist : ∀ q : ℚ, dist (q : ℝ) = ((distQ q : ℚ) : ℝ)) (contact : ℚ) :
    ∀ (fuel : ℕ) (st : FindState ℚ),
      findLoop dist (contact : ℝ) st.cast fuel
        = (findLoop distQ contact st fuel).map (fun q => (q : ℝ)) := by
  intro fuel
  induction fuel with
  | zero =>
    intro st
    simp [findLoop, FindState.cast]
  | succ n ih =>
    intro st
    obtain ⟨tmin, dmin, tmax, dmax, res, err⟩ := st
    simp only [findLoop, FindState.cast]
    by_cases h1 : contact - err > 1 / 1000
    · rw [if_pos h1, if_pos (show (contact : ℝ) - (err : ℝ) > 1 / 1000 by
        rw [tol_cast]; exact_mod_cast h1)]
      rw [show ((tmin : ℝ) + (tmax : ℝ)) / 2 = (((tmin + tmax) / 2 : ℚ) : ℝ) by push_cast; ring,
        hdist ((tmin + tmax) / 2)]
      by_cases h2 : dmin < contact
      · rw [if_pos h2, if_pos (show (dmin : ℝ) < (contact : ℝ) by exact_mod_cast h2)]
        simp
      · rw [if_neg h2, if_neg (show ¬ (dmin : ℝ) < (contact : ℝ) by exact_mod_cast h2)]
        by_cases h3 : distQ ((tmin + tmax) / 2) < contact
        · rw [if_pos h3,
            if_pos (show ((distQ ((tmin + tmax) / 2) : ℚ) : ℝ) < (contact : ℝ) by exact_mod_cast h3)]
          simpa [FindState.cast] using
            ih ⟨tmin, dmin, (tmin + tmax) / 2, distQ ((tmin + tmax) / 2),
              some ((tmin + tmax) / 2), distQ ((tmin + tmax) / 2)⟩
        · rw [if_neg h3,
            if_neg (show ¬ ((distQ ((tmin + tmax) / 2) : ℚ) : ℝ) < (contact : ℝ) by exact_mod_cast h3)]
          by_cases h4 : dmax < contact
          · rw [if_pos h4, if_pos (show (dmax : ℝ) < (contact : ℝ) by exact_mod_cast h4)]
            simpa [FindState.cast] using
              ih ⟨(tmin + tmax) / 2, distQ ((tmin + tmax) / 2), tmax, dmax, some tmax, dmax⟩
          · rw [if_neg h4, if_neg (show ¬ (dmax : ℝ) < (contact : ℝ) by exact_mod_cast h4)]
            by_cases h5 : dmin < distQ ((tmin + tmax) / 2) ∧ distQ ((tmin + tmax) / 2) < dmax
            · rw [if_pos h5,
                if_pos (show (dmin : ℝ) < ((distQ ((tmin + tmax) / 2) : ℚ) : ℝ)
                  ∧ ((distQ ((tmin + tmax) / 2) : ℚ) : ℝ) < (dmax : ℝ) by exact_mod_cast h5)]
              by_cases h6 : distQ ((tmin + tmax) / 2) - dmin = dmax - distQ ((tmin + tmax) / 2)
              · rw [if_pos h6,
                  if_pos (show ((distQ ((tmin + tmax) / 2) : ℚ) : ℝ) - (dmin : ℝ)
                    = (dmax : ℝ) - ((distQ ((tmin + tmax) / 2) : ℚ) : ℝ) by exact_mod_cast h6)]
                simp
              · rw [if_neg h6,
                  if_neg (show ¬ ((distQ ((tmin + tmax) / 2) : ℚ) : ℝ) - (dmin : ℝ)
                    = (dmax : ℝ) - ((distQ ((tmin + tmax) / 2) : ℚ) : ℝ) by exact_mod_cast h6)]
                by_cases h7 : distQ ((tmin + tmax) / 2) - dmin > dmax - distQ ((tmin + tmax) / 2)
                · rw [if_pos h7,
                    if_pos (show ((distQ ((tmin + tmax) / 2) : ℚ) : ℝ) - (dmin : ℝ)
                      > (dmax : ℝ) - ((distQ ((tmin + tmax) / 2) : ℚ) : ℝ) by exact_mod_cast h7)]
                  simpa [FindState.cast] using
                    ih ⟨(tmin + tmax) / 2, distQ ((tmin + tmax) / 2), tmax, dmax, res, err⟩
                · rw [if_neg h7,
                    if_neg (show ¬ ((distQ ((tmin + tmax) / 2) : ℚ) : ℝ) - (dmin : ℝ)
                      > (dmax : ℝ) - ((distQ ((tmin + tmax) / 2) : ℚ) : ℝ) by exact_mod_cast h7)]
                  simpa [FindState.cast] using
                    ih ⟨tmin, dmin, (tmin + tmax) / 2, distQ ((tmin + tmax) / 2), res, err⟩
            · rw [if_neg h5,
                if_neg (show ¬ ((dmin : ℝ) < ((distQ ((tmin + tmax) / 2) : ℚ) : ℝ)
                  ∧ ((distQ ((tmin + tmax) / 2) : ℚ) : ℝ) < (dmax : ℝ)) by exact_mod_cast h5)]
              by_cases h8 : dmin > distQ ((tmin + tmax) / 2) ∧ distQ ((tmin + tmax) / 2) > dmax
                  ∨ dmin > distQ ((tmin + tmax) / 2) ∧ dmax > distQ ((tmin + tmax) / 2)
              · rw [if_pos h8,
                  if_pos (show (dmin : ℝ) > ((distQ ((tmin + tmax) / 2) : ℚ) : ℝ)
                      ∧ ((distQ ((tmin + tmax) / 2) : ℚ) : ℝ) > (dmax : ℝ)
                    ∨ (dmin : ℝ) > ((distQ ((tmin + tmax) / 2) : ℚ) : ℝ)
                      ∧ (dmax : ℝ) > ((distQ ((tmin + tmax) / 2) : ℚ) : ℝ) by exact_mod_cast h8)]
                by_cases h9 : distQ ((tmin + tmax) / 2) - dmin = dmax - distQ ((tmin + tmax) / 2)
                · rw [if_pos h9,
                    if_pos (show ((distQ ((tmin + tmax) / 2) : ℚ) : ℝ) - (dmin : ℝ)
                      = (dmax : ℝ) - ((distQ ((tmin + tmax) / 2) : ℚ) : ℝ) by exact_mod_cast h9)]
                  simp
                · rw [if_neg h9,
                    if_neg (show ¬ ((distQ ((tmin + tmax) / 2) : ℚ) : ℝ) - (dmin : ℝ)
                      = (dmax : ℝ) - ((distQ ((tmin + tmax) / 2) : ℚ) : ℝ) by exact_mod_cast h9)]
                  by_cases h10 : distQ ((tmin + tmax) / 2) - dmin < dmax - distQ ((tmin + tmax) / 2)
                  · rw [if_pos h10,
                      if_pos (show ((distQ ((tmin + tmax) / 2) : ℚ) : ℝ) - (dmin : ℝ)
                        < (dmax : ℝ) - ((distQ ((tmin + tmax) / 2) : ℚ) : ℝ) by exact_mod_cast h10)]
                    simpa [FindState.cast] using
                      ih ⟨(tmin + tmax) / 2, distQ ((tmin + tmax) / 2), tmax, dmax, res, err⟩
                  · rw [if_neg h10,
                      if_neg (show ¬ ((distQ ((tmin + tmax) / 2) : ℚ) : ℝ) - (dmin : ℝ)
                        < (dmax : ℝ) - ((distQ ((tmin + tmax) / 2) : ℚ) : ℝ) by exact_mod_cast h10)]
                    simpa [FindState.cast] using
                      ih ⟨tmin, dmin, (tmin + tmax) / 2, distQ ((tmin + tmax) / 2), res, err⟩
              · rw [if_neg h8,
                  if_neg (show ¬ ((dmin : ℝ) > ((distQ ((tmin + tmax) / 2) : ℚ) : ℝ)
                      ∧ ((distQ ((tmin + tmax) / 2) : ℚ) : ℝ) > (dmax : ℝ)
                    ∨ (dmin : ℝ) > ((distQ ((tmin + tmax) / 2) : ℚ) : ℝ)
                      ∧ (dmax : ℝ) > ((distQ ((tmin + tmax) / 2) : ℚ) : ℝ)) by exact_mod_cast h8)]
                simp
    · rw [if_neg h1, if_neg (show ¬ (contact : ℝ) - (err : ℝ) > 1 / 1000 by
        rw [tol_cast]; exact_mod_cast h1)]

/-- The exact rational distance function for the head-on scenario of C5:
objects at x = -10 and x = 10 with velocities +1 and -1 are `|2t - 20|`
apart at time `t`. -/
def distQ_headon (q : ℚ) : ℚ := |2 * q - 20|

theorem distance_at_headon (q : ℚ) :
    distance_at ⟨-10, 0, 0⟩ ⟨1, 0, 0⟩ ⟨10, 0, 0⟩ ⟨-1, 0, 0⟩ (q : ℝ)
      = ((distQ_headon q : ℚ) : ℝ) := by
  simp only [distance_at, normSq, distQ_headon, Vec3.add_x, Vec3.add_y, Vec3.add_z,
    Vec3.sub_x, Vec3.sub_y, Vec3.sub_z, Vec3.smul_x, Vec3.smul_y, Vec3.smul_z]
  rw [show ((-10 : ℝ) + (q : ℝ) * 1 - (10 + (q : ℝ) * -1)) ^ 2
      + (0 + (q : ℝ) * 0 - (0 + (q : ℝ) * 0)) ^ 2
      + (0 + (q : ℝ) * 0 - (0 + (q : ℝ) * 0)) ^ 2
      = (2 * (q : ℝ) - 20) ^ 2 by ring]
  rw [Real.sqrt_sq_eq_abs]
  push_cast
  ring_nf

theorem findLoop_headon_step1 (n : ℕ) :
    findLoop distQ_headon 2 ⟨0, 20, 20, 20, some 0, 0⟩ (n + 1)
      = findLoop distQ_headon 2 ⟨0, 20, 10, 0, some 10, 0⟩ n := by
  rw [findLoop.eq_2]
  dsimp only
  rw [if_pos (show (2 : ℚ) - 0 > 1 / 1000 by norm_num),
    if_neg (show ¬ (20 : ℚ) < 2 by norm_num),
    if_pos (show distQ_headon ((0 + 20) / 2) < 2 by norm_num [distQ_headon, abs_of_nonneg])]
  congr 1
  norm_num [distQ_headon, abs_of_nonneg]

theorem findLoop_headon_step2 (n : ℕ) :
    findLoop distQ_headon 2 ⟨0, 20, 10, 0, some 10, 0⟩ (n + 1)
      = findLoop distQ_headon 2 ⟨5, 10, 10, 0, some 10, 0⟩ n := by
  rw [findLoop.eq_2]
  dsimp only
  rw [if_pos (show (2 : ℚ) - 0 > 1 / 1000 by norm_num),
    if_neg (show ¬ (20 : ℚ) < 2 by norm_num),
    if_neg (show ¬ distQ_headon ((0 + 10) / 2) < 2 by norm_num [distQ_headon, abs_of_nonneg]),
    if_pos (show (0 : ℚ) < 2 by norm_num)]
  congr 1
  norm_num [distQ_headon, abs_of_nonneg]

theorem findLoop_headon_step3 (n : ℕ) :
    findLoop distQ_headon 2 ⟨5, 10, 10, 0, some 10, 0⟩ (n + 1)
      = findLoop distQ_headon 2 ⟨15 / 2, 5, 10, 0, some 10, 0⟩ n := by
  rw [findLoop.eq_2]
  dsimp only
  rw [if_pos (show (2 : ℚ) - 0 > 1 / 1000 by norm_num),
    if_neg (show ¬ (10 : ℚ) < 2 by norm_num),
    if_neg (show ¬ distQ_headon ((5 + 10) / 2) < 2 by norm_num [distQ_headon, abs_of_nonneg]),
    if_pos (show (0 : ℚ) < 2 by norm_num)]
  congr 1
  norm_num [distQ_headon, abs_of_nonneg]

theorem findLoop_headon_step4 (n : ℕ) :
    findLoop distQ_headon 2 ⟨15 / 2, 5, 10, 0, some 10, 0⟩ (n + 1)
      = findLoop distQ_headon 2 ⟨35 / 4, 5 / 2, 10, 0, some 10, 0⟩ n := by
  rw [findLoop.eq_2]
  dsimp only
  rw [if_pos (show (2 : ℚ) - 0 > 1 / 1000 by norm_num),
    if_neg (show ¬ (5 : ℚ) < 2 by norm_num),
    if_neg (show ¬ distQ_headon ((15 / 2 + 10) / 2) < 2 by norm_num [distQ_headon, abs_of_nonneg]),
    if_pos (show (0 : ℚ) < 2 by norm_num)]
  congr 1
  norm_num [distQ_headon, abs_of_nonneg]

theorem findLoop_headon_step5 (n : ℕ) :
    findLoop distQ_headon 2 ⟨35 / 4, 5 / 2, 10, 0, some 10, 0⟩ (n + 1)
      = findLoop distQ_headon 2 ⟨35 / 4, 5 / 2, 75 / 8, 5 / 4, some (75 / 8), 5 / 4⟩ n := by
  rw [findLoop.eq_2]
  dsimp only
  rw [if_pos (show (2 : ℚ) - 0 > 1 / 1000 by norm_num),
    if_neg (show ¬ (5 : ℚ) / 2 < 2 by norm_num),
    if_pos (show distQ_headon ((35 / 4 + 10) / 2) < 2 by norm_num [distQ_headon, abs_of_nonneg])]
  congr 1
  norm_num [distQ_headon, abs_of_nonneg]

theorem findLoop_headon_step6 (n : ℕ) :
    findLoop distQ_headon 2 ⟨35 / 4, 5 / 2, 75 / 8, 5 / 4, some (75 / 8), 5 / 4⟩ (n + 1)
      = findLoop distQ_headon 2
          ⟨35 / 4, 5 / 2, 145 / 16, 15 / 8, some (145 / 16), 15 / 8⟩ n := by
  rw [findLoop.eq_2]
  dsimp only
  rw [if_pos (show (2 : ℚ) - 5 / 4 > 1 / 1000 by norm_num),
    if_neg (show ¬ (5 : ℚ) / 2 < 2 by norm_num),
    if_pos (show distQ_headon ((35 / 4 + 75 / 8) / 2) < 2 by norm_num [distQ_headon, abs_of_nonneg])]
  congr 1
  norm_num [distQ_headon, abs_of_nonneg]

theorem findLoop_headon_step7 (n : ℕ) :
    findLoop distQ_headon 2 ⟨35 / 4, 5 / 2, 145 / 16, 15 / 8, some (145 / 16), 15 / 8⟩ (n + 1)
      = findLoop distQ_headon 2
          ⟨285 / 32, 35 / 16, 145 / 16, 15 / 8, some (145 / 16), 15 / 8⟩ n := by
  rw [findLoop.eq_2]
  dsimp only
  rw [if_pos (show (2 : ℚ) - 15 / 8 > 1 / 1000 by norm_num),
    if_neg (show ¬ (5 : ℚ) / 2 < 2 by norm_num),
    if_neg (show ¬ distQ_headon ((35 / 4 + 145 / 16) / 2) < 2 by norm_num [distQ_headon, abs_of_nonneg]),
    if_pos (show (15 : ℚ) / 8 < 2 by norm_num)]
  congr 1
  norm_num [distQ_headon, abs_of_nonneg]

theorem findLoop_headon_step8 (n : ℕ) :
    findLoop distQ_headon 2
        ⟨285 / 32, 35 / 16, 145 / 16, 15 / 8, some (145 / 16), 15 / 8⟩ (n + 1)
      = findLoop distQ_headon 2
          ⟨575 / 64, 65 / 32, 145 / 16, 15 / 8, some (145 / 16), 15 / 8⟩ n := by
  rw [findLoop.eq_2]
  dsimp only
  rw [if_pos (show (2 : ℚ) - 15 / 8 > 1 / 1000 by norm_num),
    if_neg (show ¬ (35 : ℚ) / 16 < 2 by norm_num),
    if_neg (show ¬ distQ_headon ((285 / 32 + 145 / 16) / 2) < 2 by norm_num [distQ_headon, abs_of_nonneg]),
    if_pos (show (15 : ℚ) / 8 < 2 by norm_num)]
  congr 1
  norm_num [distQ_headon, abs_of_nonneg]

theorem findLoop_headon_step9 (n : ℕ) :
    findLoop distQ_headon 2
        ⟨575 / 64, 65 / 32, 145 / 16, 15 / 8, some (145 / 16), 15 / 8⟩ (n + 1)
      = findLoop distQ_headon 2
          ⟨575 / 64, 65 / 32, 1155 / 128, 125 / 64, some (1155 / 128), 125 / 64⟩ n := by
  rw [findLoop.eq_2]
  dsimp only
  rw [if_pos (show (2 : ℚ) - 15 / 8 > 1 / 1000 by norm_num),
    if_neg (show ¬ (65 : ℚ) / 32 < 2 by norm_num),
    if_pos (show distQ_headon ((575 / 64 + 145 / 16) / 2) < 2 by norm_num [distQ_headon, abs_of_nonneg])]
  congr 1
  norm_num [distQ_headon, abs_of_nonneg]

theorem findLoop_headon_step10 (n : ℕ) :
    findLoop distQ_headon 2
        ⟨575 / 64, 65 / 32, 1155 / 128, 125 / 64, some (1155 / 128), 125 / 64⟩ (n + 1)
      = findLoop distQ_headon 2
          ⟨575 / 64, 65 / 32, 2305 / 256, 255 / 128, some (2305 / 256), 255 / 128⟩ n := by
  rw [findLoop.eq_2]
  dsimp only
  rw [if_pos (show (2 : ℚ) - 125 / 64 > 1 / 1000 by norm_num),
    if_neg (show ¬ (65 : ℚ) / 32 < 2 by norm_num),
    if_pos (show distQ_headon ((575 / 64 + 1155 / 128) / 2) < 2 by norm_num [distQ_headon, abs_of_nonneg])]
  congr 1
  norm_num [distQ_headon, abs_of_nonneg]

theorem findLoop_headon_step11 (n : ℕ) :
    findLoop distQ_headon 2
        ⟨575 / 64, 65 / 32, 2305 / 256, 255 / 128, some (2305 / 256), 255 / 128⟩ (n + 1)
      = findLoop distQ_headon 2
          ⟨4605 / 512, 515 / 256, 2305 / 256, 255 / 128, some (2305 / 256), 255 / 128⟩ n := by
  rw [findLoop.eq_2]
  dsimp only
  rw [if_pos (show (2 : ℚ) - 255 / 128 > 1 / 1000 by norm_num),
    if_neg (show ¬ (65 : ℚ) / 32 < 2 by norm_num),
    if_neg (show ¬ distQ_headon ((575 / 64 + 2305 / 256) / 2) < 2 by norm_num [distQ_headon, abs_of_nonneg]),
    if_pos (show (255 : ℚ) / 128 < 2 by norm_num)]
  congr 1
  norm_num [distQ_headon, abs_of_nonneg]

theorem findLoop_headon_step12 (n : ℕ) :
    findLoop distQ_headon 2
        ⟨4605 / 512, 515 / 256, 2305 / 256, 255 / 128, some (2305 / 256), 255 / 128⟩ (n + 1)
      = findLoop distQ_headon 2
          ⟨9215 / 1024, 1025 / 512, 2305 / 256, 255 / 128, some (2305 / 256), 255 / 128⟩ n := by
  rw [findLoop.eq_2]
  dsimp only
  rw [if_pos (show (2 : ℚ) - 255 / 128 > 1 / 1000 by norm_num),
    if_neg (show ¬ (515 : ℚ) / 256 < 2 by norm_num),
    if_neg (show ¬ distQ_headon ((4605 / 512 + 2305 / 256) / 2) < 2 by norm_num [distQ_headon, abs_of_nonneg]),
    if_pos (show (255 : ℚ) / 128 < 2 by norm_num)]
  congr 1
  norm_num [distQ_headon, abs_of_nonneg]

theorem findLoop_headon_step13 (n : ℕ) :
    findLoop distQ_headon 2
        ⟨9215 / 1024, 1025 / 512, 2305 / 256, 255 / 128, some (2305 / 256), 255 / 128⟩ (n + 1)
      = findLoop distQ_headon 2
          ⟨9215 / 1024, 1025 / 512, 18435 / 2048, 2045 / 1024, some (18435 / 2048),
            2045 / 1024⟩ n := by
  rw [findLoop.eq_2]
  dsimp only
  rw [if_pos (show (2 : ℚ) - 255 / 128 > 1 / 1000 by norm_num),
    if_neg (show ¬ (1025 : ℚ) / 512 < 2 by norm_num),
    if_pos (show distQ_headon ((9215 / 1024 + 2305 / 256) / 2) < 2 by norm_num [distQ_headon, abs_of_nonneg])]
  congr 1
  norm_num [distQ_headon, abs_of_nonneg]

theorem findLoop_headon_step14 (n : ℕ) :
    findLoop distQ_headon 2
        ⟨9215 / 1024, 1025 / 512, 18435 / 2048, 2045 / 1024, some (18435 / 2048),
          2045 / 1024⟩ (n + 1)
      = findLoop distQ_headon 2
          ⟨9215 / 1024, 1025 / 512, 36865 / 4096, 4095 / 2048, some (36865 / 4096),
            4095 / 2048⟩ n := by
  rw [findLoop.eq_2]
  dsimp only
  rw [if_pos (show (2 : ℚ) - 2045 / 1024 > 1 / 1000 by norm_num),
    if_neg (show ¬ (1025 : ℚ) / 512 < 2 by norm_num),
    if_pos (show distQ_headon ((9215 / 1024 + 18435 / 2048) / 2) < 2 by
      norm_num [distQ_headon, abs_of_nonneg])]
  congr 1
  norm_num [distQ_headon, abs_of_nonneg]

theorem findLoop_headon_stop (n : ℕ) :
    findLoop distQ_headon 2
        ⟨9215 / 1024, 1025 / 512, 36865 / 4096, 4095 / 2048, some (36865 / 4096),
          4095 / 2048⟩ n
      = some (36865 / 4096) := by
  cases n with
  | zero => rfl
  | succ m =>
    rw [findLoop.eq_2]
    dsimp only
    rw [if_neg (show ¬ (2 : ℚ) - 4095 / 2048 > 1 / 1000 by norm_num)]

/-- The exact value the bisection computes for the head-on scenario: fourteen
iterations end with `result = 9 + 1/4096` once `contact - error` (that is,
`2 - 4095/2048`) drops below the 1/1000 tolerance. -/
theorem findLoop_headon_eval :
    findLoop distQ_headon 2 ⟨0, 20, 20, 20, some 0, 0⟩ 100 = some (36865 / 4096) :=
  (findLoop_headon_step1 99).trans <| (findLoop_headon_step2 98).trans <|
    (findLoop_headon_step3 97).trans <| (findLoop_headon_step4 96).trans <|
    (findLoop_headon_step5 95).trans <| (findLoop_headon_step6 94).trans <|
    (findLoop_headon_step7 93).trans <| (findLoop_headon_step8 92).trans <|
    (findLoop_headon_step9 91).trans <| (findLoop_headon_step10 90).trans <|
    (findLoop_headon_step11 89).trans <| (findLoop_headon_step12 88).trans <|
    (findLoop_headon_step13 87).trans <| (findLoop_headon_step14 86).trans <|
    findLoop_headon_stop 86

/-- C5: for object A at (-10,0,0) with velocity (1,0,0) and object B at
(10,0,0) with velocity (-1,0,0), both of radius 1, the narrow-phase search
over the window [0, 20] detects an impact time within 1/1000 of 9.0 (the
exact value returned is 9 + 1/4096). -/
theorem C5_headon_impact_time :
    ∃ t : ℝ, find_collision ⟨1, 100, ⟨⟨-10, 0, 0⟩, ⟨1, 0, 0⟩, 0⟩⟩
        ⟨1, 100, ⟨⟨10, 0, 0⟩, ⟨-1, 0, 0⟩, 0⟩⟩ 20 0 = some t
      ∧ |t - 9| ≤ 1 / 1000 := by
  refine ⟨((36865 / 4096 : ℚ) : ℝ), ?_, by norm_num [abs_of_nonneg]⟩
  have hb := findLoop_rat_cast
    (distance_at ⟨-10, 0, 0⟩ ⟨1, 0, 0⟩ ⟨10, 0, 0⟩ ⟨-1, 0, 0⟩) distQ_headon
    distance_at_headon 2 100 ⟨0, 20, 20, 20, some 0, 0⟩
  rw [findLoop_headon_eval] at hb
  have h0 := distance_at_headon 0
  have h20 := distance_at_headon 20
  norm_num [distQ_headon, abs_of_nonneg] at h0 h20
  norm_num [FindState.cast, Option.map] at hb
  show _find ⟨-10, 0, 0⟩ ⟨1, 0, 0⟩ ⟨10, 0, 0⟩ ⟨-1, 0, 0⟩ 0 20 (1 + 1)
      = some ((36865 / 4096 : ℚ) : ℝ)
  rw [_find, h0, h20]
  norm_num
  convert hb using 2

/-- C3: for every contacting pair the resolver computes the scalar impulse
`J = -(1+e) dot(vA-vB, n) / (1/mA + 1/mB)` with `e = 0.6` and
`n = position(B) - position(A)`, applies `-J n` to A and `+J n` to B with
`Δv = impulse / mass`, and the `on_collide` hooks run on the post-impulse
objects in the order A-then-B. -/
theorem C3_resolver_formula (a b : ObjectInSpace) :
    (collide a b).1.coords.velocity
        = a.coords.velocity
          + (-(((-(1 + 0.6) * dot (a.coords.velocity - b.coords.velocity)
                  (b.coords.position - a.coords.position))
                / (1 / a.mass + 1 / b.mass))
              • (b.coords.position - a.coords.position))) / a.mass
    ∧ (collide a b).2.1.coords.velocity
        = b.coords.velocity
          + (((-(1 + 0.6) * dot (a.coords.velocity - b.coords.velocity)
                  (b.coords.position - a.coords.position))
                / (1 / a.mass + 1 / b.mass))
              • (b.coords.position - a.coords.position)) / b.mass
    ∧ (collide a b).2.2 = [((collide a b).1, (collide a b).2.1),
        ((collide a b).2.1, (collide a b).1)] :=
  ⟨rfl, rfl, rfl⟩

/-- C9 counterexample: at `e = 0.6`, `n = (1,0,0)`, `vA = (1,0,0)`, `vB = 0`,
`mA = mB = 1`, the velocity change `collide` applies to the first object is
`(0.8, 0, 0)` while the first vector returned by `get_delta_v` is
`(-0.8, 0, 0)`: the claimed equality fails. -/
theorem C9_counterexample :
    (collide ⟨1, 1, ⟨⟨0, 0, 0⟩, ⟨1, 0, 0⟩, 0⟩⟩
          ⟨1, 1, ⟨⟨1, 0, 0⟩, ⟨0, 0, 0⟩, 0⟩⟩).1.coords.velocity
        - (⟨1, 1, ⟨⟨0, 0, 0⟩, ⟨1, 0, 0⟩, 0⟩⟩ : ObjectInSpace).coords.velocity
      ≠ (get_delta_v 0.6 ⟨1, 0, 0⟩ ⟨1, 0, 0⟩ ⟨0, 0, 0⟩ 1 1).1 := by
  intro h
  have hx := congrArg Vec3.x h
  simp [collide, get_delta_v, ObjectInSpace.impulse, dot] at hx
  norm_num at hx

/-- C9 (amended): the velocity change `collide` applies to each object is the
negation of the corresponding vector returned by `get_delta_v` (the two
implementations use opposite sign conventions for applying the impulse). -/
theorem C9_collide_negates_get_delta_v (a b : ObjectInSpace) :
    (collide a b).1.coords.velocity - a.coords.velocity
        = -(get_delta_v 0.6 (b.coords.position - a.coords.position)
            a.coords.velocity b.coords.velocity a.mass b.mass).1
    ∧ (collide a b).2.1.coords.velocity - b.coords.velocity
        = -(get_delta_v 0.6 (b.coords.position - a.coords.position)
            a.coords.velocity b.coords.velocity a.mass b.mass).2 := by
  constructor
  · ext <;> simp [collide, get_delta_v, ObjectInSpace.impulse, dot] <;> ring
  · ext <;> simp [collide, get_delta_v, ObjectInSpace.impulse, dot] <;> ring

/-- C7 counterexample: constructing an object with mass -1 is not rejected;
the constructor returns an object whose stored mass is the non-positive -1,
unvalidated and unclamped. -/
theorem C7_counterexample :
    (ObjectInSpace.init 0 0 0 100 (-1) 0 false).mass = -1
    ∧ ¬ 0 < (ObjectInSpace.init 0 0 0 100 (-1) 0 false).mass :=
  ⟨rfl, by norm_num [ObjectInSpace.init]⟩

/-- C7 (amended): construction performs no mass validation at all; any mass
value, including non-positive ones, is accepted and stored unchanged. -/
theorem C7_no_mass_validation (x y z size mass : ℝ) (domain : ℤ) (priv : Bool) :
    (ObjectInSpace.init x y z size mass domain priv).mass = mass := rfl

theorem mass_foldl (l : List Body) (r : ℝ) :
    l.foldl (fun acc o => acc + o.mass) r = r + (l.map Body.mass).sum := by
  induction l generalizing r with
  | nil => simp
  | cons hd tl ih => simp [ih, List.sum_cons]; ring

/-- C8: constructing a `MultiSystem` with fewer than two members raises
`ValueError`; with two or more members it succeeds and its mass is the sum of
the member masses. -/
theorem C8_multisystem (bodies : List Body) :
    (bodies.length < 2 → MultiSystem.init bodies
        = Except.error ("A Multi System must have at least two Objects."))
    ∧ (2 ≤ bodies.length → MultiSystem.init bodies = Except.ok ⟨bodies⟩
        ∧ MultiSystem.mass ⟨bodies⟩ = (bodies.map Body.mass).sum) := by
  constructor
  · intro h
    simp [MultiSystem.init, h]
  · intro h
    refine ⟨by simp [MultiSystem.init]; omega, ?_⟩
    simp [MultiSystem.mass, mass_foldl]

/-- C8 witness: the empty list fails, and the two-member system of masses 3
and 5 is constructed with mass 8. -/
theorem C8_witness :
    MultiSystem.init ([] : List Body)
        = Except.error ("A Multi System must have at least two Objects.")
    ∧ MultiSystem.init [⟨3⟩, ⟨5⟩] = Except.ok ⟨[⟨3⟩, ⟨5⟩]⟩
    ∧ MultiSystem.mass ⟨[⟨3⟩, ⟨5⟩]⟩ = 8 := by
  refine ⟨(C8_multisystem []).1 (by norm_num), ?_, ?_⟩
  · exact ((C8_multisystem [⟨3⟩, ⟨5⟩]).2 (by norm_num)).1
  · have h := ((C8_multisystem [⟨3⟩, ⟨5⟩]).2 (by norm_num)).2
    rw [h]
    norm_num

/-- C6: `progress(0, 1)` performs no ticks (and an empty tick trace leaves any
world state unchanged); `progress(-1, 1)` and `progress(5, 0)` raise
`ValueError`; and for positive duration and granularity the loop performs
exactly `duration * granularity` ticks of `1 / granularity` each. -/
theorem C6_progress_contract :
    progress 0 1 = Except.ok []
    ∧ (∀ (W : Type) (step : ℚ → W → W) (w : W), applyTicks step [] w = w)
    ∧ progress (-1) 1
        = Except.error ("Unfortunately the laws of thermodynamics prohibit time reversal.")
    ∧ progress 5 0 = Except.error ("Progression granularity must be positive and nonzero")
    ∧ ∀ time granularity : ℤ, 0 < time → 0 < granularity →
        progress time granularity
          = Except.ok (List.replicate (time * granularity).toNat (1 / (granularity : ℚ))) := by
  refine ⟨rfl, fun W step w => rfl, rfl, rfl, ?_⟩
  intro t g ht hg
  rw [progress, if_neg (by omega), if_neg (by omega), if_neg (by omega)]

/-- C6 witness: `progress 2 3` performs six ticks of one third each. -/
theorem C6_progress_witness :
    0 < (2 : ℤ) ∧ 0 < (3 : ℤ)
    ∧ progress 2 3 = Except.ok (List.replicate 6 (1 / 3 : ℚ)) := by
  refine ⟨by norm_num, by norm_num, ?_⟩
  have h := C6_progress_contract.2.2.2.2 2 3 (by norm_num) (by norm_num)
  simpa using h

/-- C10: when duration is 0 `progress` returns as a no-op for every
granularity, including 0 and negative values, because the zero-duration check
precedes the granularity validation. -/
theorem C10_zero_duration_short_circuits (g : ℤ) : progress 0 g = Except.ok [] := rfl

/-- C1: evaluation of `tick`'s resolution phase at a collisions list found in
pair-enumeration order `[(5, pair0), (2, pair1)]` within a 10-second tick (the
first-enumerated pair collides later).  The source never sorts the list (the
sort exists only as a TODO comment), so the conversion to relative offsets
yields `[(5, pair0), (-3, pair1)]` - a negative time increment - and the
resolver processes pair0, whose impact time is 5, strictly before pair1,
whose impact time is 2.  The world time at each resolution still equals the
record's own impact time (the telescoping offsets), but the claimed ascending
processing order is violated. -/
theorem C1_unsorted_resolution_eval :
    (tickResolution 10 [((5 : ℚ), (0 : ℕ)), (2, 1)]).1 = [(5, 0), (-3, 1)]
    ∧ (tickResolution 10 [((5 : ℚ), (0 : ℕ)), (2, 1)]).2 = 8
    ∧ resolveTimes 0 (tickResolution 10 [((5 : ℚ), (0 : ℕ)), (2, 1)]).1
        = [(5, 0), (2, 1)]
    ∧ ((tickResolution 10 [((5 : ℚ), (0 : ℕ)), (2, 1)]).1.map Prod.snd = [0, 1]) := by
  refine ⟨?_, ?_, ?_, ?_⟩ <;> norm_num [tickResolution, relativize, resolveTimes]

end

end Astronautica
